import Mathlib

/-!
# Barberian API — shallow embedding

Shallow embedding of `src/backend/server/main.py`, a FastAPI CRUD service over a
MySQL schema (SQLAlchemy models).  The relational store is modelled as a record
of per-table row lists, each with an auto-increment counter (MySQL
`autoincrement` primary keys).  Endpoint handlers become pure functions on this
store; HTTP 404 responses become `Except` errors.  Dates and times are opaque
(`Nat` codes): no endpoint inspects them.  Foreign-key enforcement lives in the
database engine and is outside the application logic embedded here (the spec:
"enforced by the database, not by application logic"); the `users.email` UNIQUE
constraint (main.py line 95) is modelled inside `create_user`, since the commit
there surfaces it as a failed insert.
-/

/-- `AppointmentStatusEnum` (main.py lines 24-28). -/
inductive AppointmentStatusEnum where
  | pending
  | confirmed
  | cancelled
  | done
deriving DecidableEq, Repr

/-- `DayOfWeekEnum` (main.py lines 30-37). -/
inductive DayOfWeekEnum where
  | monday
  | tuesday
  | wednesday
  | thursday
  | friday
  | saturday
  | sunday
deriving DecidableEq, Repr

/-- Row of `roles` (main.py lines 50-54). -/
structure Role where
  id_role : Nat
  name : String
deriving DecidableEq, Repr

/-- Row of `genres` (main.py lines 58-62). -/
structure Genre where
  id_genre : Nat
  name : String
deriving DecidableEq, Repr

/-- Row of `departments` (main.py lines 67-71). -/
structure Department where
  id_department : Nat
  name : String
deriving DecidableEq, Repr

/-- Row of `citys` (main.py lines 78-83). -/
structure City where
  id_city : Nat
  name : String
  id_department : Nat
deriving DecidableEq, Repr

/-- Row of `users` (main.py lines 90-97).  `password_hash` is a nullable
column; `id_role` is a nullable foreign key. -/
structure User where
  id_user : Nat
  full_name : String
  email : String
  password_hash : Option String
  id_role : Option Nat
deriving DecidableEq, Repr

/-- Row of `specialties` (main.py lines 113-118). -/
structure Specialty where
  id_specialty : Nat
  name : String
  years_experience : Option Int
deriving DecidableEq, Repr

/-- Row of `barber_schedule` (main.py lines 122-128). -/
structure BarberSchedule where
  id_schedule : Nat
  day_of_week : DayOfWeekEnum
  start_time : Nat
  end_time : Nat
deriving DecidableEq, Repr

/-- Row of `customers` (main.py lines 132-141). -/
structure Customer where
  id_customer : Nat
  id_user : Nat
  id_genre : Nat
  phone : Option String
  direction : Option String
  id_department : Nat
  id_city : Nat
deriving DecidableEq, Repr

/-- Row of `staff` (main.py lines 149-153). -/
structure Staff where
  id_staff : Nat
  id_barber : Nat
deriving DecidableEq, Repr

/-- Row of `barbershops` (main.py lines 158-163). -/
structure Barbershop where
  id_barbershop : Nat
  id_staff : Nat
  phone : Option String
deriving DecidableEq, Repr

/-- Row of `barbers` (main.py lines 169-182). -/
structure Barber where
  id_barber : Nat
  id_user : Nat
  id_genre : Nat
  id_barbershop : Option Nat
  id_specialty : Option Nat
  id_department : Nat
  id_city : Nat
  id_barber_schedule : Option Nat
  phone : Option String
  direction : Option String
  points : Int
deriving DecidableEq, Repr

/-- Row of `locations` (main.py lines 194-203). -/
structure DbLocation where
  id_location : Nat
  id_barbershop : Nat
  id_department : Nat
  id_city : Nat
  address : String
  opening_hour : Nat
  closing_hour : Nat
deriving DecidableEq, Repr

/-- Row of `appointment` (main.py lines 209-218). -/
structure Appointment where
  id_appointment : Nat
  id_customer : Nat
  id_barber : Nat
  appointment_date : Nat
  start_time : Nat
  end_time : Nat
  status : AppointmentStatusEnum
deriving DecidableEq, Repr

/-- One table: its rows in storage order plus the next auto-increment id. -/
structure Table (α : Type) where
  rows : List α
  nextId : Nat
deriving DecidableEq, Repr

/-- The relational store: one `Table` per SQLAlchemy model used by the
endpoints. -/
structure DB where
  roles : Table Role
  genres : Table Genre
  departments : Table Department
  cities : Table City
  users : Table User
  specialties : Table Specialty
  schedules : Table BarberSchedule
  customers : Table Customer
  staff : Table Staff
  barbershops : Table Barbershop
  barbers : Table Barber
  locations : Table DbLocation
  appointments : Table Appointment
deriving DecidableEq, Repr

/-- HTTP-level failures raised by the handlers: `HTTPException(404, detail)`
becomes `notFound detail`; a constraint violation surfaced by `db.commit()`
becomes `integrityError`. -/
inductive ApiError where
  | notFound (detail : String)
  | integrityError
deriving DecidableEq, Repr

/-- Overwrite the `status` of the first row matching `appointment_id`, leaving
every other row and every other field untouched.  This is the effect of
`appointment.status = status; db.commit()` on the row fetched by
`.filter(...).first()` (main.py lines 705-710). -/
def setStatusFirst (appointment_id : Nat) (st : AppointmentStatusEnum) :
    List Appointment → List Appointment
  | [] => []
  | a :: rest =>
      if a.id_appointment = appointment_id then { a with status := st } :: rest
      else a :: setStatusFirst appointment_id st rest

/-- `update_appointment_status` (main.py lines 703-711, PATCH
`/appointments/{appointment_id}/status`): 404 when no appointment matches,
otherwise write the new status unconditionally and return the success
message. -/
def update_appointment_status (appointment_id : Nat)
    (st : AppointmentStatusEnum) (db : DB) : Except ApiError String × DB :=
  match db.appointments.rows.find? (fun a => a.id_appointment == appointment_id) with
  | none => (.error (.notFound "Appointment not found"), db)
  | some _ =>
      (.ok "Appointment status updated successfully",
       { db with appointments :=
          ⟨setStatusFirst appointment_id st db.appointments.rows,
           db.appointments.nextId⟩ })

/-! ## Generic first-match helper lemmas -/

/-- A successful `find?` splits the list at the first match. -/
theorem find?_eq_some_split {α : Type} (p : α → Bool) :
    ∀ (l : List α) (a : α), l.find? p = some a →
      ∃ l₁ l₂, l = l₁ ++ a :: l₂ ∧ p a = true ∧ ∀ b ∈ l₁, p b = false := by
  intro l
  induction l with
  | nil => intro a h; simp [List.find?] at h
  | cons x xs ih =>
      intro a h
      by_cases hx : p x = true
      · refine ⟨[], xs, ?_, ?_, ?_⟩
        · simp [List.find?, hx] at h
          simp [h]
        · simp [List.find?, hx] at h
          simpa [← h] using hx
        · intro b hb; simp at hb
      · have h' : xs.find? p = some a := by
          simpa [List.find?, hx] using h
        obtain ⟨l₁, l₂, hsplit, hpa, hnone⟩ := ih a h'
        refine ⟨x :: l₁, l₂, by simp [hsplit], hpa, ?_⟩
        intro b hb
        rcases List.mem_cons.mp hb with hb | hb
        · simpa [hb] using eq_false_of_ne_true hx
        · exact hnone b hb

/-- `find?` returns `none` exactly when no element satisfies the
predicate. -/
theorem find?_eq_none_iff {α : Type} (p : α → Bool) (l : List α) :
    l.find? p = none ↔ ∀ a ∈ l, p a = false := by
  induction l with
  | nil => simp [List.find?]
  | cons x xs ih =>
      by_cases hx : p x = true
      · simp [List.find?, hx]
      · have hx' : p x = false := eq_false_of_ne_true hx
        simp [List.find?, hx', ih]

/-- On the split produced by a first match, `setStatusFirst` rewrites exactly
the matched row. -/
theorem setStatusFirst_split (appointment_id : Nat) (st : AppointmentStatusEnum) :
    ∀ (l₁ : List Appointment) (a : Appointment) (l₂ : List Appointment),
      a.id_appointment = appointment_id →
      (∀ b ∈ l₁, b.id_appointment ≠ appointment_id) →
      setStatusFirst appointment_id st (l₁ ++ a :: l₂) =
        l₁ ++ { a with status := st } :: l₂ := by
  intro l₁
  induction l₁ with
  | nil =>
      intro a l₂ ha _
      simp [setStatusFirst, ha]
  | cons x xs ih =>
      intro a l₂ ha hno
      have hx : x.id_appointment ≠ appointment_id := hno x (by simp)
      simp only [List.cons_append, setStatusFirst, if_neg hx, List.append_eq]
      exact congrArg (List.cons x) (ih a l₂ ha (fun b hb => hno b (by simp [hb])))

/-! ## Pydantic creation payloads (main.py lines 224-420) -/

/-- `RoleCreate` (lines 224-228). -/
structure RoleCreate where
  name : String
deriving DecidableEq, Repr

/-- `GenreCreate` (lines 236-240). -/
structure GenreCreate where
  name : String
deriving DecidableEq, Repr

/-- `DepartmentCreate` (lines 248-252). -/
structure DepartmentCreate where
  name : String
deriving DecidableEq, Repr

/-- `CityCreate` (lines 260-265). -/
structure CityCreate where
  name : String
  id_department : Nat
deriving DecidableEq, Repr

/-- `UserCreate` (lines 274-280): `full_name`, `email`, optional `id_role`,
plus the plaintext `password`. -/
structure UserCreate where
  full_name : String
  email : String
  id_role : Option Nat
  password : String
deriving DecidableEq, Repr

/-- `CustomerCreate` (lines 289-298). -/
structure CustomerCreate where
  id_user : Nat
  id_genre : Nat
  phone : Option String
  direction : Option String
  id_department : Nat
  id_city : Nat
deriving DecidableEq, Repr

/-- `SpecialtyCreate` (lines 310-315). -/
structure SpecialtyCreate where
  name : String
  years_experience : Option Int
deriving DecidableEq, Repr

/-- `BarberScheduleCreate` (lines 323-329). -/
structure BarberScheduleCreate where
  day_of_week : DayOfWeekEnum
  start_time : Nat
  end_time : Nat
deriving DecidableEq, Repr

/-- `BarberCreate` (lines 337-350). -/
structure BarberCreate where
  id_user : Nat
  id_genre : Nat
  id_barbershop : Option Nat
  id_specialty : Option Nat
  id_department : Nat
  id_city : Nat
  id_barber_schedule : Option Nat
  phone : Option String
  direction : Option String
  points : Int
deriving DecidableEq, Repr

/-- `StaffCreate` (lines 365-369). -/
structure StaffCreate where
  id_barber : Nat
deriving DecidableEq, Repr

/-- `BarbershopCreate` (lines 378-383). -/
structure BarbershopCreate where
  id_staff : Nat
  phone : Option String
deriving DecidableEq, Repr

/-- `LocationCreate` (lines 391-400). -/
structure LocationCreate where
  id_barbershop : Nat
  id_department : Nat
  id_city : Nat
  address : String
  opening_hour : Nat
  closing_hour : Nat
deriving DecidableEq, Repr

/-- `AppointmentCreate` after pydantic validation (lines 411-420): `status`
is always present, the default having been applied. -/
structure AppointmentCreate where
  id_customer : Nat
  id_barber : Nat
  appointment_date : Nat
  start_time : Nat
  end_time : Nat
  status : AppointmentStatusEnum
deriving DecidableEq, Repr

/-- The raw JSON body of POST `/appointments/`: `status` may be omitted
(`none`). -/
structure AppointmentCreateInput where
  id_customer : Nat
  id_barber : Nat
  appointment_date : Nat
  start_time : Nat
  end_time : Nat
  status : Option AppointmentStatusEnum
deriving DecidableEq, Repr

/-- Pydantic parsing of the appointment body: an omitted `status` gets the
declared default `AppointmentStatusEnum.pending` (main.py line 417). -/
def AppointmentCreateInput.parse (i : AppointmentCreateInput) : AppointmentCreate :=
  { id_customer := i.id_customer
    id_barber := i.id_barber
    appointment_date := i.appointment_date
    start_time := i.start_time
    end_time := i.end_time
    status := i.status.getD AppointmentStatusEnum.pending }

/-! ## Response serialization needed by the claims -/

/-- `RoleResponse` (lines 230-234). -/
structure RoleResponse where
  name : String
  id_role : Nat
deriving DecidableEq, Repr

/-- Serialize a `Role` row. -/
def roleToResponse (r : Role) : RoleResponse :=
  { name := r.name, id_role := r.id_role }

/-- `UserResponse` (lines 282-287): `full_name`, `email`, `id_role`,
`id_user` and the one-level `role` embedding.  No password field exists in
the schema. -/
structure UserResponse where
  full_name : String
  email : String
  id_role : Option Nat
  id_user : Nat
  role : Option RoleResponse
deriving DecidableEq, Repr

/-- Serialize a `User` row: copy the schema fields and resolve the `role`
relationship (the `Role` row whose primary key equals `id_role`). -/
def userToResponse (roles : List Role) (u : User) : UserResponse :=
  { full_name := u.full_name
    email := u.email
    id_role := u.id_role
    id_user := u.id_user
    role := u.id_role.bind fun rid =>
      (roles.find? (fun r => r.id_role == rid)).map roleToResponse }

/-! ## Create endpoints (add row, commit, return it) -/

/-- `create_role` (lines 455-461). -/
def create_role (p : RoleCreate) (db : DB) : Role × DB :=
  let r : Role := { id_role := db.roles.nextId, name := p.name }
  (r, { db with roles := ⟨db.roles.rows ++ [r], db.roles.nextId + 1⟩ })

/-- `create_genre` (lines 469-475). -/
def create_genre (p : GenreCreate) (db : DB) : Genre × DB :=
  let g : Genre := { id_genre := db.genres.nextId, name := p.name }
  (g, { db with genres := ⟨db.genres.rows ++ [g], db.genres.nextId + 1⟩ })

/-- `create_department` (lines 483-489). -/
def create_department (p : DepartmentCreate) (db : DB) : Department × DB :=
  let d : Department := { id_department := db.departments.nextId, name := p.name }
  (d, { db with departments := ⟨db.departments.rows ++ [d], db.departments.nextId + 1⟩ })

/-- `create_city` (lines 497-503). -/
def create_city (p : CityCreate) (db : DB) : City × DB :=
  let c : City := { id_city := db.cities.nextId, name := p.name,
                    id_department := p.id_department }
  (c, { db with cities := ⟨db.cities.rows ++ [c], db.cities.nextId + 1⟩ })

/-- `create_user` (lines 516-527): pop `password` from the payload, store it
as `password_hash` with no hashing, insert.  The commit enforces the UNIQUE
constraint on `email` (line 95): a duplicate email fails the insert and
leaves the store unchanged. -/
def create_user (p : UserCreate) (db : DB) : Except ApiError UserResponse × DB :=
  if db.users.rows.any (fun u => u.email == p.email) then
    (.error .integrityError, db)
  else
    let u : User := { id_user := db.users.nextId, full_name := p.full_name,
                      email := p.email, password_hash := some p.password,
                      id_role := p.id_role }
    let db' : DB := { db with users := ⟨db.users.rows ++ [u], db.users.nextId + 1⟩ }
    (.ok (userToResponse db'.roles.rows u), db')

/-- `create_customer` (lines 542-548). -/
def create_customer (p : CustomerCreate) (db : DB) : Customer × DB :=
  let c : Customer := { id_customer := db.customers.nextId, id_user := p.id_user,
                        id_genre := p.id_genre, phone := p.phone,
                        direction := p.direction, id_department := p.id_department,
                        id_city := p.id_city }
  (c, { db with customers := ⟨db.customers.rows ++ [c], db.customers.nextId + 1⟩ })

/-- `create_specialty` (lines 563-569). -/
def create_specialty (p : SpecialtyCreate) (db : DB) : Specialty × DB :=
  let s : Specialty := { id_specialty := db.specialties.nextId, name := p.name,
                         years_experience := p.years_experience }
  (s, { db with specialties := ⟨db.specialties.rows ++ [s], db.specialties.nextId + 1⟩ })

/-- `create_barber_schedule` (lines 577-583). -/
def create_barber_schedule (p : BarberScheduleCreate) (db : DB) :
    BarberSchedule × DB :=
  let s : BarberSchedule := { id_schedule := db.schedules.nextId,
                              day_of_week := p.day_of_week,
                              start_time := p.start_time, end_time := p.end_time }
  (s, { db with schedules := ⟨db.schedules.rows ++ [s], db.schedules.nextId + 1⟩ })

/-- `create_barber` (lines 591-597). -/
def create_barber (p : BarberCreate) (db : DB) : Barber × DB :=
  let b : Barber := { id_barber := db.barbers.nextId, id_user := p.id_user,
                      id_genre := p.id_genre, id_barbershop := p.id_barbershop,
                      id_specialty := p.id_specialty,
                      id_department := p.id_department, id_city := p.id_city,
                      id_barber_schedule := p.id_barber_schedule,
                      phone := p.phone, direction := p.direction,
                      points := p.points }
  (b, { db with barbers := ⟨db.barbers.rows ++ [b], db.barbers.nextId + 1⟩ })

/-- `create_staff` (lines 617-623). -/
def create_staff (p : StaffCreate) (db : DB) : Staff × DB :=
  let s : Staff := { id_staff := db.staff.nextId, id_barber := p.id_barber }
  (s, { db with staff := ⟨db.staff.rows ++ [s], db.staff.nextId + 1⟩ })

/-- `create_barbershop` (lines 655-661). -/
def create_barbershop (p : BarbershopCreate) (db : DB) : Barbershop × DB :=
  let b : Barbershop := { id_barbershop := db.barbershops.nextId,
                          id_staff := p.id_staff, phone := p.phone }
  (b, { db with barbershops := ⟨db.barbershops.rows ++ [b], db.barbershops.nextId + 1⟩ })

/-- `create_location` (lines 669-675). -/
def create_location (p : LocationCreate) (db : DB) : DbLocation × DB :=
  let l : DbLocation := { id_location := db.locations.nextId,
                          id_barbershop := p.id_barbershop,
                          id_department := p.id_department, id_city := p.id_city,
                          address := p.address, opening_hour := p.opening_hour,
                          closing_hour := p.closing_hour }
  (l, { db with locations := ⟨db.locations.rows ++ [l], db.locations.nextId + 1⟩ })

/-- `create_appointment` (lines 683-689): insert the validated payload as a
new row, `status` taken verbatim from the parsed payload. -/
def create_appointment (p : AppointmentCreate) (db : DB) : Appointment × DB :=
  let a : Appointment := { id_appointment := db.appointments.nextId,
                           id_customer := p.id_customer, id_barber := p.id_barber,
                           appointment_date := p.appointment_date,
                           start_time := p.start_time, end_time := p.end_time,
                           status := p.status }
  (a, { db with appointments := ⟨db.appointments.rows ++ [a], db.appointments.nextId + 1⟩ })

/-! ## Read endpoints needed by the claims -/

/-- `read_users` (lines 529-532): offset/limit over the `users` table,
each row serialized through `UserResponse`. -/
def read_users (skip limit : Nat) (db : DB) : List UserResponse :=
  ((db.users.rows.drop skip).take limit).map (userToResponse db.roles.rows)

/-- `read_user` (lines 534-539): first row with the given primary key, 404
when absent. -/
def read_user (user_id : Nat) (db : DB) : Except ApiError UserResponse :=
  match db.users.rows.find? (fun u => u.id_user == user_id) with
  | none => .error (.notFound "User not found")
  | some u => .ok (userToResponse db.roles.rows u)

/-- `read_cities_by_department` (lines 510-513): rows of `citys` whose
`id_department` equals the path parameter. -/
def read_cities_by_department (department_id : Nat) (db : DB) : List City :=
  db.cities.rows.filter (fun c => c.id_department == department_id)

/-- `read_barbers_by_city` (lines 611-614). -/
def read_barbers_by_city (city_id : Nat) (db : DB) : List Barber :=
  db.barbers.rows.filter (fun b => b.id_city == city_id)

/-- `read_appointments_by_customer` (lines 713-716). -/
def read_appointments_by_customer (customer_id : Nat) (db : DB) : List Appointment :=
  db.appointments.rows.filter (fun a => a.id_customer == customer_id)

/-- `read_appointments_by_barber` (lines 718-721). -/
def read_appointments_by_barber (barber_id : Nat) (db : DB) : List Appointment :=
  db.appointments.rows.filter (fun a => a.id_barber == barber_id)

/-- `read_staff_by_id` (lines 630-635). -/
def read_staff_by_id (staff_id : Nat) (db : DB) : Except ApiError Staff :=
  match db.staff.rows.find? (fun s => s.id_staff == staff_id) with
  | none => .error (.notFound "Staff not found")
  | some s => .ok s

/-- `read_staff_by_barber` (lines 637-642): `.first()` over the rows whose
`id_barber` matches, 404 when none. -/
def read_staff_by_barber (barber_id : Nat) (db : DB) : Except ApiError Staff :=
  match db.staff.rows.find? (fun s => s.id_barber == barber_id) with
  | none => .error (.notFound "Staff not found for this barber")
  | some s => .ok s

/-- Remove the first row matching `staff_id`: the effect of `db.delete(staff)`
on the object fetched by `.first()`. -/
def removeFirstStaff (staff_id : Nat) : List Staff → List Staff
  | [] => []
  | s :: rest =>
      if s.id_staff = staff_id then rest
      else s :: removeFirstStaff staff_id rest

/-- `delete_staff` (lines 644-652): 404 when no row matches, otherwise delete
the fetched row and return the confirmation message. -/
def delete_staff (staff_id : Nat) (db : DB) : Except ApiError String × DB :=
  match db.staff.rows.find? (fun s => s.id_staff == staff_id) with
  | none => (.error (.notFound "Staff not found"), db)
  | some _ =>
      (.ok "Staff deleted successfully",
       { db with staff := ⟨removeFirstStaff staff_id db.staff.rows, db.staff.nextId⟩ })

/-- The nine counters of GET `/stats` (lines 734-746). -/
structure Stats where
  users : Nat
  customers : Nat
  barbers : Nat
  staff : Nat
  appointments : Nat
  barbershops : Nat
  specialties : Nat
  departments : Nat
  cities : Nat
deriving DecidableEq, Repr

/-- `get_stats` (lines 734-746): nine independent `count()` queries; the
session only reads, so the store comes back unchanged. -/
def get_stats (db : DB) : Stats × DB :=
  ({ users := db.users.rows.length
     customers := db.customers.rows.length
     barbers := db.barbers.rows.length
     staff := db.staff.rows.length
     appointments := db.appointments.rows.length
     barbershops := db.barbershops.rows.length
     specialties := db.specialties.rows.length
     departments := db.departments.rows.length
     cities := db.cities.rows.length }, db)

/-! ## The mutating operations of the API, as one step relation -/

/-- Every state-mutating endpoint of the API (the thirteen POST creates, the
status PATCH, and the staff DELETE; every other endpoint is a read). -/
inductive Op where
  | createRole (p : RoleCreate)
  | createGenre (p : GenreCreate)
  | createDepartment (p : DepartmentCreate)
  | createCity (p : CityCreate)
  | createUser (p : UserCreate)
  | createCustomer (p : CustomerCreate)
  | createSpecialty (p : SpecialtyCreate)
  | createBarberSchedule (p : BarberScheduleCreate)
  | createBarber (p : BarberCreate)
  | createStaff (p : StaffCreate)
  | createBarbershop (p : BarbershopCreate)
  | createLocation (p : LocationCreate)
  | createAppointment (p : AppointmentCreate)
  | updateAppointmentStatus (appointment_id : Nat) (st : AppointmentStatusEnum)
  | deleteStaff (staff_id : Nat)

/-- The state reached after executing one mutating endpoint. -/
def Op.step : Op → DB → DB
  | .createRole p, db => (create_role p db).2
  | .createGenre p, db => (create_genre p db).2
  | .createDepartment p, db => (create_department p db).2
  | .createCity p, db => (create_city p db).2
  | .createUser p, db => (create_user p db).2
  | .createCustomer p, db => (create_customer p db).2
  | .createSpecialty p, db => (create_specialty p db).2
  | .createBarberSchedule p, db => (create_barber_schedule p db).2
  | .createBarber p, db => (create_barber p db).2
  | .createStaff p, db => (create_staff p db).2
  | .createBarbershop p, db => (create_barbershop p db).2
  | .createLocation p, db => (create_location p db).2
  | .createAppointment p, db => (create_appointment p db).2
  | .updateAppointmentStatus i st, db => (update_appointment_status i st db).2
  | .deleteStaff i, db => (delete_staff i db).2

/-- Discriminator for the one endpoint allowed to touch an existing
appointment's status. -/
def Op.isUpdateStatus : Op → Bool
  | .updateAppointmentStatus _ _ => true
  | _ => false

/-- On the split produced by a first match, `removeFirstStaff` drops exactly
the matched row. -/
theorem removeFirstStaff_split (staff_id : Nat) :
    ∀ (l₁ : List Staff) (s : Staff) (l₂ : List Staff),
      s.id_staff = staff_id →
      (∀ t ∈ l₁, t.id_staff ≠ staff_id) →
      removeFirstStaff staff_id (l₁ ++ s :: l₂) = l₁ ++ l₂ := by
  intro l₁
  induction l₁ with
  | nil =>
      intro s l₂ hs _
      simp [removeFirstStaff, hs]
  | cons x xs ih =>
      intro s l₂ hs hno
      have hx : x.id_staff ≠ staff_id := hno x (by simp)
      simp only [List.cons_append, removeFirstStaff, if_neg hx, List.append_eq]
      exact congrArg (List.cons x) (ih s l₂ hs (fun t ht => hno t (by simp [ht])))

/-- Mapping a function that agrees pointwise along a `Forall₂` yields equal
lists. -/
theorem map_eq_of_forall₂ {α β : Type} (f : α → β) :
    ∀ (l₁ l₂ : List α), List.Forall₂ (fun u v => f u = f v) l₁ l₂ →
      l₁.map f = l₂.map f := by
  intro l₁
  induction l₁ with
  | nil => intro l₂ h; cases h; rfl
  | cons x xs ih =>
      intro l₂ h
      cases h with
      | cons hx hrest => simpa [hx] using ih _ hrest

/-- A small concrete store used to exercise the theorems: one role, one
department, one city, one user, two staff rows pointing at the same barber,
and one pending appointment. -/
def sampleDB : DB where
  roles := ⟨[{ id_role := 1, name := "admin" }], 2⟩
  genres := ⟨[], 1⟩
  departments := ⟨[{ id_department := 1, name := "Antioquia" }], 2⟩
  cities := ⟨[{ id_city := 1, name := "Medellin", id_department := 1 }], 2⟩
  users := ⟨[{ id_user := 1, full_name := "Ana", email := "ana@example.com",
               password_hash := some "pw", id_role := some 1 }], 2⟩
  specialties := ⟨[], 1⟩
  schedules := ⟨[], 1⟩
  customers := ⟨[], 1⟩
  staff := ⟨[⟨1, 1⟩, ⟨2, 1⟩], 3⟩
  barbershops := ⟨[], 1⟩
  barbers := ⟨[], 1⟩
  locations := ⟨[], 1⟩
  appointments := ⟨[⟨1, 1, 1, 20260101, 900, 930, .pending⟩], 2⟩

/-- C1: when `update_appointment_status` succeeds, the store decomposes at the
matched appointment; only that row's `status` field changes, every other field
of it and every other row of every table (and the auto-increment counter) are
unchanged. -/
theorem update_appointment_status_changes_only_status
    (appointment_id : Nat) (st : AppointmentStatusEnum) (db : DB)
    (msg : String) (db' : DB)
    (h : update_appointment_status appointment_id st db = (.ok msg, db')) :
    ∃ l₁ a l₂,
      db.appointments.rows = l₁ ++ a :: l₂ ∧
      a.id_appointment = appointment_id ∧
      (∀ b ∈ l₁, b.id_appointment ≠ appointment_id) ∧
      db'.appointments.rows = l₁ ++ { a with status := st } :: l₂ ∧
      db'.appointments.nextId = db.appointments.nextId ∧
      db'.roles = db.roles ∧
      db'.genres = db.genres ∧
      db'.departments = db.departments ∧
      db'.cities = db.cities ∧
      db'.users = db.users ∧
      db'.specialties = db.specialties ∧
      db'.schedules = db.schedules ∧
      db'.customers = db.customers ∧
      db'.staff = db.staff ∧
      db'.barbershops = db.barbershops ∧
      db'.barbers = db.barbers ∧
      db'.locations = db.locations := by
  unfold update_appointment_status at h
  cases hfind : db.appointments.rows.find?
      (fun a => a.id_appointment == appointment_id) with
  | none => rw [hfind] at h; simp at h
  | some a₀ =>
      rw [hfind] at h
      simp only [Prod.mk.injEq] at h
      obtain ⟨-, hdb'⟩ := h
      obtain ⟨l₁, l₂, hsplit, hpa, hnone⟩ := find?_eq_some_split _ _ _ hfind
      have ha : a₀.id_appointment = appointment_id := by simpa using hpa
      have hno : ∀ b ∈ l₁, b.id_appointment ≠ appointment_id := by
        intro b hb
        simpa using hnone b hb
      subst hdb'
      have hrows : setStatusFirst appointment_id st db.appointments.rows =
          l₁ ++ { a₀ with status := st } :: l₂ := by
        rw [hsplit]
        exact setStatusFirst_split appointment_id st l₁ a₀ l₂ ha hno
      exact ⟨l₁, a₀, l₂, hsplit, ha, hno, hrows, rfl, rfl, rfl, rfl, rfl, rfl,
        rfl, rfl, rfl, rfl, rfl, rfl, rfl⟩

/-- C1 witness: updating the status of appointment 1 in the sample store. -/
theorem update_appointment_status_changes_only_status_witness :
    ∃ l₁ a l₂,
      sampleDB.appointments.rows = l₁ ++ a :: l₂ ∧
      a.id_appointment = 1 ∧
      (∀ b ∈ l₁, b.id_appointment ≠ 1) ∧
      (update_appointment_status 1 AppointmentStatusEnum.done sampleDB).2.appointments.rows =
        l₁ ++ { a with status := AppointmentStatusEnum.done } :: l₂ ∧
      (update_appointment_status 1 AppointmentStatusEnum.done sampleDB).2.appointments.nextId =
        sampleDB.appointments.nextId ∧
      (update_appointment_status 1 AppointmentStatusEnum.done sampleDB).2.roles = sampleDB.roles ∧
      (update_appointment_status 1 AppointmentStatusEnum.done sampleDB).2.genres = sampleDB.genres ∧
      (update_appointment_status 1 AppointmentStatusEnum.done sampleDB).2.departments = sampleDB.departments ∧
      (update_appointment_status 1 AppointmentStatusEnum.done sampleDB).2.cities = sampleDB.cities ∧
      (update_appointment_status 1 AppointmentStatusEnum.done sampleDB).2.users = sampleDB.users ∧
      (update_appointment_status 1 AppointmentStatusEnum.done sampleDB).2.specialties = sampleDB.specialties ∧
      (update_appointment_status 1 AppointmentStatusEnum.done sampleDB).2.schedules = sampleDB.schedules ∧
      (update_appointment_status 1 AppointmentStatusEnum.done sampleDB).2.customers = sampleDB.customers ∧
      (update_appointment_status 1 AppointmentStatusEnum.done sampleDB).2.staff = sampleDB.staff ∧
      (update_appointment_status 1 AppointmentStatusEnum.done sampleDB).2.barbershops = sampleDB.barbershops ∧
      (update_appointment_status 1 AppointmentStatusEnum.done sampleDB).2.barbers = sampleDB.barbers ∧
      (update_appointment_status 1 AppointmentStatusEnum.done sampleDB).2.locations = sampleDB.locations :=
  update_appointment_status_changes_only_status 1 AppointmentStatusEnum.done sampleDB
    "Appointment status updated successfully"
    (update_appointment_status 1 AppointmentStatusEnum.done sampleDB).2 rfl

/-- C2: `update_appointment_status` returns the not-found error exactly when no
appointment carries the requested id; on that failure the store is unchanged;
and whenever a matching appointment exists the write succeeds for every status
value — no transition is rejected. -/
theorem update_appointment_status_not_found_iff
    (appointment_id : Nat) (st : AppointmentStatusEnum) (db : DB) :
    ((update_appointment_status appointment_id st db).1 =
        .error (.notFound "Appointment not found") ↔
      ∀ a ∈ db.appointments.rows, a.id_appointment ≠ appointment_id) ∧
    ((∀ a ∈ db.appointments.rows, a.id_appointment ≠ appointment_id) →
      (update_appointment_status appointment_id st db).2 = db) ∧
    ((∃ a ∈ db.appointments.rows, a.id_appointment = appointment_id) →
      (update_appointment_status appointment_id st db).1 =
        .ok "Appointment status updated successfully") := by
  cases hfind : db.appointments.rows.find?
      (fun a => a.id_appointment == appointment_id) with
  | none =>
      have hall : ∀ a ∈ db.appointments.rows, a.id_appointment ≠ appointment_id := by
        intro a ha
        simpa using (find?_eq_none_iff _ _).mp hfind a ha
      refine ⟨iff_of_true ?_ hall, fun _ => ?_, ?_⟩
      · simp [update_appointment_status, hfind]
      · simp [update_appointment_status, hfind]
      · rintro ⟨a, ha, haid⟩
        exact absurd haid (hall a ha)
  | some a₀ =>
      have hmem : a₀ ∈ db.appointments.rows := List.mem_of_find?_eq_some hfind
      have hid : a₀.id_appointment = appointment_id := by
        simpa using List.find?_some hfind
      refine ⟨iff_of_false ?_ ?_, ?_, fun _ => ?_⟩
      · simp [update_appointment_status, hfind]
      · intro hall
        exact absurd hid (hall a₀ hmem)
      · intro hall
        exact absurd hid (hall a₀ hmem)
      · simp [update_appointment_status, hfind]

/-- C2 witness: appointment 1 exists in the sample store, so a
cancelled-after-pending write succeeds. -/
theorem update_appointment_status_not_found_iff_witness :
    (update_appointment_status 1 AppointmentStatusEnum.cancelled sampleDB).1 =
      .ok "Appointment status updated successfully" :=
  (update_appointment_status_not_found_iff 1 AppointmentStatusEnum.cancelled sampleDB).2.2
    ⟨⟨1, 1, 1, 20260101, 900, 930, .pending⟩, by decide, rfl⟩

/-- C3: an appointment created from a payload that omits `status` is persisted
with status `pending`; and every mutating endpoint other than the status PATCH
leaves every pre-existing appointment row (its status included) unchanged —
the new state's appointment rows extend the old ones. -/
theorem appointment_status_default_and_isolation :
    (∀ (i : AppointmentCreateInput) (db : DB), i.status = none →
      (create_appointment i.parse db).1.status = AppointmentStatusEnum.pending ∧
      (create_appointment i.parse db).2.appointments.rows =
        db.appointments.rows ++ [(create_appointment i.parse db).1]) ∧
    (∀ (op : Op) (db : DB), op.isUpdateStatus = false →
      ∃ t, (op.step db).appointments.rows = db.appointments.rows ++ t) := by
  constructor
  · intro i db hnone
    constructor
    · simp [create_appointment, AppointmentCreateInput.parse, hnone]
    · rfl
  · intro op db hop
    cases op with
    | createRole p => exact ⟨[], by simp [Op.step, create_role]⟩
    | createGenre p => exact ⟨[], by simp [Op.step, create_genre]⟩
    | createDepartment p => exact ⟨[], by simp [Op.step, create_department]⟩
    | createCity p => exact ⟨[], by simp [Op.step, create_city]⟩
    | createUser p =>
        refine ⟨[], ?_⟩
        cases hc : db.users.rows.any (fun u => u.email == p.email) <;>
          simp [Op.step, create_user, hc]
    | createCustomer p => exact ⟨[], by simp [Op.step, create_customer]⟩
    | createSpecialty p => exact ⟨[], by simp [Op.step, create_specialty]⟩
    | createBarberSchedule p => exact ⟨[], by simp [Op.step, create_barber_schedule]⟩
    | createBarber p => exact ⟨[], by simp [Op.step, create_barber]⟩
    | createStaff p => exact ⟨[], by simp [Op.step, create_staff]⟩
    | createBarbershop p => exact ⟨[], by simp [Op.step, create_barbershop]⟩
    | createLocation p => exact ⟨[], by simp [Op.step, create_location]⟩
    | createAppointment p =>
        exact ⟨[(create_appointment p db).1], by simp [Op.step, create_appointment]⟩
    | updateAppointmentStatus i st => simp [Op.isUpdateStatus] at hop
    | deleteStaff i =>
        refine ⟨[], ?_⟩
        cases hfind : db.staff.rows.find? (fun s => s.id_staff == i) <;>
          simp [Op.step, delete_staff, hfind]

/-- C3 witness: creating an appointment with no status in the body persists
`pending`, and deleting staff 1 leaves the appointment rows alone. -/
theorem appointment_status_default_and_isolation_witness :
    ((create_appointment
        (AppointmentCreateInput.parse ⟨1, 1, 20260102, 1000, 1030, none⟩)
        sampleDB).1.status = AppointmentStatusEnum.pending ∧
      (create_appointment
        (AppointmentCreateInput.parse ⟨1, 1, 20260102, 1000, 1030, none⟩)
        sampleDB).2.appointments.rows =
        sampleDB.appointments.rows ++
          [(create_appointment
              (AppointmentCreateInput.parse ⟨1, 1, 20260102, 1000, 1030, none⟩)
              sampleDB).1]) ∧
    ∃ t, ((Op.deleteStaff 1).step sampleDB).appointments.rows =
      sampleDB.appointments.rows ++ t :=
  ⟨appointment_status_default_and_isolation.1 ⟨1, 1, 20260102, 1000, 1030, none⟩
      sampleDB rfl,
    appointment_status_default_and_isolation.2 (Op.deleteStaff 1) sampleDB rfl⟩

/-- C4: when the email is fresh, `create_user` appends exactly one `User` row
whose `password_hash` is the payload's `password`, verbatim and unhashed. -/
theorem create_user_stores_password_verbatim
    (p : UserCreate) (db : DB)
    (h : db.users.rows.any (fun u => u.email == p.email) = false) :
    (create_user p db).2.users.rows =
      db.users.rows ++
        [{ id_user := db.users.nextId, full_name := p.full_name,
           email := p.email, password_hash := some p.password,
           id_role := p.id_role }] := by
  simp [create_user, h]

/-- C4 witness: creating a fresh user in the sample store persists the literal
password string as the credential. -/
theorem create_user_stores_password_verbatim_witness :
    (create_user ⟨"Bob", "bob@example.com", none, "secret123"⟩ sampleDB).2.users.rows =
      sampleDB.users.rows ++
        [{ id_user := sampleDB.users.nextId, full_name := "Bob",
           email := "bob@example.com", password_hash := some "secret123",
           id_role := none }] :=
  create_user_stores_password_verbatim ⟨"Bob", "bob@example.com", none, "secret123"⟩
    sampleDB (by decide)

/-- C5: creating a user whose email already appears in the store fails with
the integrity error and leaves the whole store (in particular the `users`
table) unchanged — no duplicate row is created. -/
theorem create_user_duplicate_email_fails
    (p : UserCreate) (db : DB) (u : User)
    (hu : u ∈ db.users.rows) (he : u.email = p.email) :
    (create_user p db).1 = .error .integrityError ∧
    (create_user p db).2 = db := by
  have hany : db.users.rows.any (fun v => v.email == p.email) = true :=
    List.any_eq_true.mpr ⟨u, hu, by simp [he]⟩
  constructor <;> simp [create_user, hany]

/-- C5 witness: re-creating the sample store's existing email fails and the
store is unchanged. -/
theorem create_user_duplicate_email_fails_witness :
    (create_user ⟨"Ana Clone", "ana@example.com", none, "other"⟩ sampleDB).1 =
      .error .integrityError ∧
    (create_user ⟨"Ana Clone", "ana@example.com", none, "other"⟩ sampleDB).2 =
      sampleDB :=
  create_user_duplicate_email_fails ⟨"Ana Clone", "ana@example.com", none, "other"⟩
    sampleDB
    ⟨1, "Ana", "ana@example.com", some "pw", some 1⟩ (by decide) rfl

/-- C6: each filter endpoint returns exactly the rows whose foreign-key field
equals the path parameter — membership in the result is equivalent to being a
matching stored row — and returns the empty sequence when no row matches. -/
theorem filter_endpoints_exact (k : Nat) (db : DB) :
    (∀ c, c ∈ read_cities_by_department k db ↔
      c ∈ db.cities.rows ∧ c.id_department = k) ∧
    (∀ b, b ∈ read_barbers_by_city k db ↔
      b ∈ db.barbers.rows ∧ b.id_city = k) ∧
    (∀ a, a ∈ read_appointments_by_customer k db ↔
      a ∈ db.appointments.rows ∧ a.id_customer = k) ∧
    (∀ a, a ∈ read_appointments_by_barber k db ↔
      a ∈ db.appointments.rows ∧ a.id_barber = k) ∧
    ((∀ c ∈ db.cities.rows, c.id_department ≠ k) →
      read_cities_by_department k db = []) ∧
    ((∀ b ∈ db.barbers.rows, b.id_city ≠ k) →
      read_barbers_by_city k db = []) ∧
    ((∀ a ∈ db.appointments.rows, a.id_customer ≠ k) →
      read_appointments_by_customer k db = []) ∧
    ((∀ a ∈ db.appointments.rows, a.id_barber ≠ k) →
      read_appointments_by_barber k db = []) := by
  refine ⟨?_, ?_, ?_, ?_, ?_, ?_, ?_, ?_⟩
  · intro c
    simp [read_cities_by_department, List.mem_filter]
  · intro b
    simp [read_barbers_by_city, List.mem_filter]
  · intro a
    simp [read_appointments_by_customer, List.mem_filter]
  · intro a
    simp [read_appointments_by_barber, List.mem_filter]
  · intro h
    exact List.filter_eq_nil_iff.mpr fun c hc => by simpa using h c hc
  · intro h
    exact List.filter_eq_nil_iff.mpr fun b hb => by simpa using h b hb
  · intro h
    exact List.filter_eq_nil_iff.mpr fun a ha => by simpa using h a ha
  · intro h
    exact List.filter_eq_nil_iff.mpr fun a ha => by simpa using h a ha

/-- C6 witness: no row of the sample store carries foreign key 99, so all four
filter endpoints return the empty sequence there. -/
theorem filter_endpoints_exact_witness :
    read_cities_by_department 99 sampleDB = [] ∧
    read_barbers_by_city 99 sampleDB = [] ∧
    read_appointments_by_customer 99 sampleDB = [] ∧
    read_appointments_by_barber 99 sampleDB = [] :=
  ⟨(filter_endpoints_exact 99 sampleDB).2.2.2.2.1 (by decide),
   (filter_endpoints_exact 99 sampleDB).2.2.2.2.2.1 (by decide),
   (filter_endpoints_exact 99 sampleDB).2.2.2.2.2.2.1 (by decide),
   (filter_endpoints_exact 99 sampleDB).2.2.2.2.2.2.2 (by decide)⟩

/-- C7: `read_staff_by_barber` fails with not-found exactly when no staff row
references the barber; when it returns a row, that row matches and is the
first match in storage order (no earlier row references the barber). -/
theorem read_staff_by_barber_first_match (barber_id : Nat) (db : DB) :
    (read_staff_by_barber barber_id db =
        .error (.notFound "Staff not found for this barber") ↔
      ∀ s ∈ db.staff.rows, s.id_barber ≠ barber_id) ∧
    (∀ s, read_staff_by_barber barber_id db = .ok s →
      s.id_barber = barber_id ∧
      ∃ l₁ l₂, db.staff.rows = l₁ ++ s :: l₂ ∧
        ∀ t ∈ l₁, t.id_barber ≠ barber_id) := by
  cases hfind : db.staff.rows.find? (fun s => s.id_barber == barber_id) with
  | none =>
      have hall : ∀ s ∈ db.staff.rows, s.id_barber ≠ barber_id := by
        intro s hs
        simpa using (find?_eq_none_iff _ _).mp hfind s hs
      refine ⟨iff_of_true ?_ hall, ?_⟩
      · simp [read_staff_by_barber, hfind]
      · intro s hs
        simp [read_staff_by_barber, hfind] at hs
  | some s₀ =>
      have hid : s₀.id_barber = barber_id := by
        simpa using List.find?_some hfind
      have hmem : s₀ ∈ db.staff.rows := List.mem_of_find?_eq_some hfind
      refine ⟨iff_of_false ?_ ?_, ?_⟩
      · simp [read_staff_by_barber, hfind]
      · intro hall
        exact absurd hid (hall s₀ hmem)
      · intro s hs
        have hss : s₀ = s := by
          simpa [read_staff_by_barber, hfind] using hs
        subst hss
        obtain ⟨l₁, l₂, hsplit, -, hnone⟩ := find?_eq_some_split _ _ _ hfind
        exact ⟨hid, l₁, l₂, hsplit, fun t ht => by simpa using hnone t ht⟩

/-- C7 witness: two staff rows reference barber 1 in the sample store, and the
endpoint returns exactly the first (staff 1), with no earlier match. -/
theorem read_staff_by_barber_first_match_witness :
    (⟨1, 1⟩ : Staff).id_barber = 1 ∧
    ∃ l₁ l₂, sampleDB.staff.rows = l₁ ++ (⟨1, 1⟩ : Staff) :: l₂ ∧
      ∀ t ∈ l₁, t.id_barber ≠ 1 :=
  (read_staff_by_barber_first_match 1 sampleDB).2 ⟨1, 1⟩ rfl

/-- C8: under the primary-key uniqueness of `id_staff`, deleting a present
staff id removes exactly that row (the store decomposes around it), returns
the confirmation, makes a subsequent fetch by that id fail with not-found, and
leaves every other table untouched; deleting an absent id fails with not-found
and leaves the whole store unchanged. -/
theorem delete_staff_spec (staff_id : Nat) (db : DB)
    (hnodup : (db.staff.rows.map Staff.id_staff).Nodup) :
    ((∃ s ∈ db.staff.rows, s.id_staff = staff_id) →
      (delete_staff staff_id db).1 = .ok "Staff deleted successfully" ∧
      (∃ l₁ s l₂, db.staff.rows = l₁ ++ s :: l₂ ∧ s.id_staff = staff_id ∧
        (delete_staff staff_id db).2.staff.rows = l₁ ++ l₂) ∧
      read_staff_by_id staff_id (delete_staff staff_id db).2 =
        .error (.notFound "Staff not found") ∧
      (delete_staff staff_id db).2.staff.nextId = db.staff.nextId ∧
      (delete_staff staff_id db).2.roles = db.roles ∧
      (delete_staff staff_id db).2.genres = db.genres ∧
      (delete_staff staff_id db).2.departments = db.departments ∧
      (delete_staff staff_id db).2.cities = db.cities ∧
      (delete_staff staff_id db).2.users = db.users ∧
      (delete_staff staff_id db).2.specialties = db.specialties ∧
      (delete_staff staff_id db).2.schedules = db.schedules ∧
      (delete_staff staff_id db).2.customers = db.customers ∧
      (delete_staff staff_id db).2.barbershops = db.barbershops ∧
      (delete_staff staff_id db).2.barbers = db.barbers ∧
      (delete_staff staff_id db).2.locations = db.locations ∧
      (delete_staff staff_id db).2.appointments = db.appointments) ∧
    ((∀ s ∈ db.staff.rows, s.id_staff ≠ staff_id) →
      (delete_staff staff_id db).1 = .error (.notFound "Staff not found") ∧
      (delete_staff staff_id db).2 = db) := by
  cases hfind : db.staff.rows.find? (fun s => s.id_staff == staff_id) with
  | none =>
      have hall : ∀ s ∈ db.staff.rows, s.id_staff ≠ staff_id := by
        intro s hs
        simpa using (find?_eq_none_iff _ _).mp hfind s hs
      refine ⟨?_, fun _ => ?_⟩
      · rintro ⟨s, hs, hsid⟩
        exact absurd hsid (hall s hs)
      · constructor <;> simp [delete_staff, hfind]
  | some s₀ =>
      have hid : s₀.id_staff = staff_id := by
        simpa using List.find?_some hfind
      have hmem : s₀ ∈ db.staff.rows := List.mem_of_find?_eq_some hfind
      obtain ⟨l₁, l₂, hsplit, -, hnone⟩ := find?_eq_some_split _ _ _ hfind
      have hno₁ : ∀ t ∈ l₁, t.id_staff ≠ staff_id := by
        intro t ht
        simpa using hnone t ht
      have hrows : (delete_staff staff_id db).2.staff.rows = l₁ ++ l₂ := by
        simp only [delete_staff, hfind]
        rw [hsplit]
        exact removeFirstStaff_split staff_id l₁ s₀ l₂ hid hno₁
      have hno₂ : ∀ t ∈ l₂, t.id_staff ≠ staff_id := by
        have hnd : ((l₁ ++ s₀ :: l₂).map Staff.id_staff).Nodup := by
          rw [← hsplit]; exact hnodup
        rw [List.map_append, List.map_cons] at hnd
        have hnd' : (s₀.id_staff :: l₂.map Staff.id_staff).Nodup :=
          hnd.of_append_right
        have hnotmem : s₀.id_staff ∉ l₂.map Staff.id_staff :=
          (List.nodup_cons.mp hnd').1
        intro t ht hteq
        exact hnotmem (hid ▸ hteq ▸ List.mem_map_of_mem Staff.id_staff ht)
      refine ⟨fun _ => ?_, fun hall => absurd hid (hall s₀ hmem)⟩
      have hget : read_staff_by_id staff_id (delete_staff staff_id db).2 =
          .error (.notFound "Staff not found") := by
        have hfind' : (delete_staff staff_id db).2.staff.rows.find?
            (fun s => s.id_staff == staff_id) = none := by
          apply (find?_eq_none_iff _ _).mpr
          intro t ht
          rw [hrows] at ht
          rcases List.mem_append.mp ht with ht | ht
          · simpa using hno₁ t ht
          · simpa using hno₂ t ht
        simp [read_staff_by_id, hfind']
      refine ⟨by simp [delete_staff, hfind], ⟨l₁, s₀, l₂, hsplit, hid, hrows⟩,
        hget, ?_, ?_, ?_, ?_, ?_, ?_, ?_, ?_, ?_, ?_, ?_, ?_, ?_⟩ <;>
        simp [delete_staff, hfind]

/-- C8 witness: deleting staff 2 from the sample store (ids 1 and 2 are
distinct) succeeds, removes exactly that row, and a subsequent fetch of id 2
fails with not-found. -/
theorem delete_staff_spec_witness :
    (delete_staff 2 sampleDB).1 = .ok "Staff deleted successfully" ∧
    (∃ l₁ s l₂, sampleDB.staff.rows = l₁ ++ s :: l₂ ∧ s.id_staff = 2 ∧
      (delete_staff 2 sampleDB).2.staff.rows = l₁ ++ l₂) ∧
    read_staff_by_id 2 (delete_staff 2 sampleDB).2 =
      .error (.notFound "Staff not found") ∧
    (delete_staff 2 sampleDB).2.staff.nextId = sampleDB.staff.nextId ∧
    (delete_staff 2 sampleDB).2.roles = sampleDB.roles ∧
    (delete_staff 2 sampleDB).2.genres = sampleDB.genres ∧
    (delete_staff 2 sampleDB).2.departments = sampleDB.departments ∧
    (delete_staff 2 sampleDB).2.cities = sampleDB.cities ∧
    (delete_staff 2 sampleDB).2.users = sampleDB.users ∧
    (delete_staff 2 sampleDB).2.specialties = sampleDB.specialties ∧
    (delete_staff 2 sampleDB).2.schedules = sampleDB.schedules ∧
    (delete_staff 2 sampleDB).2.customers = sampleDB.customers ∧
    (delete_staff 2 sampleDB).2.barbershops = sampleDB.barbershops ∧
    (delete_staff 2 sampleDB).2.barbers = sampleDB.barbers ∧
    (delete_staff 2 sampleDB).2.locations = sampleDB.locations ∧
    (delete_staff 2 sampleDB).2.appointments = sampleDB.appointments :=
  (delete_staff_spec 2 sampleDB (by decide)).1 ⟨⟨2, 1⟩, by decide, rfl⟩

/-- C9: `stats()` returns nine counters, each equal to the row count of the
corresponding table, and leaves the store unchanged. -/
theorem get_stats_counts (db : DB) :
    (get_stats db).1.users = db.users.rows.length ∧
    (get_stats db).1.customers = db.customers.rows.length ∧
    (get_stats db).1.barbers = db.barbers.rows.length ∧
    (get_stats db).1.staff = db.staff.rows.length ∧
    (get_stats db).1.appointments = db.appointments.rows.length ∧
    (get_stats db).1.barbershops = db.barbershops.rows.length ∧
    (get_stats db).1.specialties = db.specialties.rows.length ∧
    (get_stats db).1.departments = db.departments.rows.length ∧
    (get_stats db).1.cities = db.cities.rows.length ∧
    (get_stats db).2 = db :=
  ⟨rfl, rfl, rfl, rfl, rfl, rfl, rfl, rfl, rfl, rfl⟩

/-- `find?` over two `Forall₂`-related lists, with a predicate that respects
the relation: both fail, or both succeed on related elements. -/
theorem find?_rel_of_forall₂ {α : Type} (R : α → α → Prop) (p : α → Bool)
    (hp : ∀ u v, R u v → p u = p v) :
    ∀ (l₁ l₂ : List α), List.Forall₂ R l₁ l₂ →
      (l₁.find? p = none ∧ l₂.find? p = none) ∨
      (∃ u v, R u v ∧ l₁.find? p = some u ∧ l₂.find? p = some v) := by
  intro l₁
  induction l₁ with
  | nil =>
      intro l₂ h
      cases h
      exact Or.inl ⟨rfl, rfl⟩
  | cons x xs ih =>
      intro l₂ h
      cases h with
      | cons hxy hrest =>
          rename_i y ys
          by_cases hx : p x = true
          · have hy : p y = true := by rw [← hp _ _ hxy]; exact hx
            exact Or.inr ⟨x, y, hxy, by simp [List.find?, hx], by simp [List.find?, hy]⟩
          · have hx' : p x = false := eq_false_of_ne_true hx
            have hy' : p y = false := by rw [← hp _ _ hxy]; exact hx'
            rcases ih _ hrest with ⟨h₁, h₂⟩ | ⟨u, v, hR, h₁, h₂⟩
            · exact Or.inl ⟨by simp [List.find?, hx', h₁],
                by simp [List.find?, hy', h₂]⟩
            · exact Or.inr ⟨u, v, hR, by simp [List.find?, hx', h₁],
                by simp [List.find?, hy', h₂]⟩

/-- C10: two `create_user` payloads that differ only in the password are
indistinguishable through the API's user responses — the create response, every
`read_user` response, and every `read_users` page coincide, because
`UserResponse` carries no password or `password_hash` field. -/
theorem create_user_password_noninterference
    (p₁ p₂ : UserCreate) (db : DB)
    (hn : p₁.full_name = p₂.full_name) (he : p₁.email = p₂.email)
    (hr : p₁.id_role = p₂.id_role) :
    (create_user p₁ db).1 = (create_user p₂ db).1 ∧
    (∀ uid, read_user uid (create_user p₁ db).2 =
      read_user uid (create_user p₂ db).2) ∧
    (∀ skip limit, read_users skip limit (create_user p₁ db).2 =
      read_users skip limit (create_user p₂ db).2) := by
  cases hc : db.users.rows.any (fun u => u.email == p₁.email) with
  | true =>
      have hc₂ : db.users.rows.any (fun u => u.email == p₂.email) = true := by
        rw [← he]; exact hc
      refine ⟨?_, fun uid => ?_, fun skip limit => ?_⟩ <;>
        simp [create_user, hc, hc₂]
  | false =>
      have hc₂ : db.users.rows.any (fun u => u.email == p₂.email) = false := by
        rw [← he]; exact hc
      have hresp : userToResponse db.roles.rows
            { id_user := db.users.nextId, full_name := p₁.full_name,
              email := p₁.email, password_hash := some p₁.password,
              id_role := p₁.id_role } =
          userToResponse db.roles.rows
            { id_user := db.users.nextId, full_name := p₂.full_name,
              email := p₂.email, password_hash := some p₂.password,
              id_role := p₂.id_role } := by
        simp [userToResponse, hn, he, hr]
      have hF : List.Forall₂
          (fun u v => userToResponse db.roles.rows u = userToResponse db.roles.rows v)
          (db.users.rows ++
            [{ id_user := db.users.nextId, full_name := p₁.full_name,
               email := p₁.email, password_hash := some p₁.password,
               id_role := p₁.id_role }])
          (db.users.rows ++
            [{ id_user := db.users.nextId, full_name := p₂.full_name,
               email := p₂.email, password_hash := some p₂.password,
               id_role := p₂.id_role }]) := by
        apply List.rel_append
        · exact List.forall₂_same.mpr fun _ _ => rfl
        · exact List.Forall₂.cons hresp List.Forall₂.nil
      refine ⟨?_, fun uid => ?_, fun skip limit => ?_⟩
      · simp [create_user, hc, hc₂]
        exact hresp
      · have hid : ∀ u v,
            userToResponse db.roles.rows u = userToResponse db.roles.rows v →
            (u.id_user == uid) = (v.id_user == uid) := by
          intro u v hR
          have huv : u.id_user = v.id_user := by
            simpa [userToResponse] using congrArg UserResponse.id_user hR
          rw [huv]
        simp [create_user, hc, hc₂]
        rcases find?_rel_of_forall₂ _ (fun u => u.id_user == uid) hid _ _ hF with
          ⟨h₁, h₂⟩ | ⟨u, v, hR, h₁, h₂⟩
        · simp [read_user, h₁, h₂]
        · simpa [read_user, h₁, h₂] using hR
      · simp [create_user, hc, hc₂]
        exact map_eq_of_forall₂ _ _ _
          (List.forall₂_take limit (List.forall₂_drop skip hF))

/-- C10 witness: two creations of "Bob" that differ only in the password give
the same create response, the same fetch-by-id response, and the same listing
page. -/
theorem create_user_password_noninterference_witness :
    (create_user ⟨"Bob", "bob@example.com", some 1, "hunter2"⟩ sampleDB).1 =
      (create_user ⟨"Bob", "bob@example.com", some 1, "different"⟩ sampleDB).1 ∧
    read_user 2 (create_user ⟨"Bob", "bob@example.com", some 1, "hunter2"⟩ sampleDB).2 =
      read_user 2 (create_user ⟨"Bob", "bob@example.com", some 1, "different"⟩ sampleDB).2 ∧
    read_users 0 100 (create_user ⟨"Bob", "bob@example.com", some 1, "hunter2"⟩ sampleDB).2 =
      read_users 0 100 (create_user ⟨"Bob", "bob@example.com", some 1, "different"⟩ sampleDB).2 :=
  ⟨(create_user_password_noninterference
      ⟨"Bob", "bob@example.com", some 1, "hunter2"⟩
      ⟨"Bob", "bob@example.com", some 1, "different"⟩ sampleDB rfl rfl rfl).1,
   (create_user_password_noninterference
      ⟨"Bob", "bob@example.com", some 1, "hunter2"⟩
      ⟨"Bob", "bob@example.com", some 1, "different"⟩ sampleDB rfl rfl rfl).2.1 2,
   (create_user_password_noninterference
      ⟨"Bob", "bob@example.com", some 1, "hunter2"⟩
      ⟨"Bob", "bob@example.com", some 1, "different"⟩ sampleDB rfl rfl rfl).2.2 0 100⟩
